import Mathlib

/-!
Verification of the aggregation-and-caching core of the
Disaster-Response-Coordination-Platform repository.

The development shallowly embeds the JavaScript sources

  * `src/services/cacheService.js`   (CacheStore)
  * `src/services/scrapingService.js` (FeedIngestor + OfficialUpdatesAggregator)
  * `src/services/socialMediaService.js` (SocialMediaAggregator)

into Lean.  Strings are embedded as `List Char`; JavaScript truthiness of
strings (`undefined` and `""` are falsy) is modelled explicitly; machine time
is a `Nat` counting milliseconds; every external collaborator (the Supabase
backing store, axios, the Bluesky search endpoint, `Math.random`) is an
explicit input describing the single outcome that collaborator produced
during the call.  A JavaScript function that may throw is embedded as a
function into `Except Err`; a `try { } catch { }` block becomes a `match` on
the embedded body.
-/

set_option linter.unusedVariables false

namespace DisasterPlatform

/-- JavaScript strings, embedded as lists of characters. -/
abbrev Str := List Char

/-- Errors thrown by collaborators; their content is never inspected. -/
abbrev Err := Unit

/-- Lower-casing of a JS string (`String.prototype.toLowerCase`, ASCII part). -/
def lower (s : Str) : Str := s.map Char.toLower

/-- Embedding of `String.prototype.includes`: substring containment. -/
def containsSub (needle hay : Str) : Bool :=
  needle.isPrefixOf hay ||
    match hay with
    | [] => false
    | _ :: t => containsSub needle t

/-- Embedding of the JS idiom `maybeString || fallback` (both `undefined`
and the empty string are falsy). -/
def jsOrStr (o : Option Str) (d : Str) : Str :=
  match o with
  | some s => if s = [] then d else s
  | none => d

/-- Stringification of a possibly-undefined string inside a template
literal: `undefined` prints as "undefined". -/
def strOfOpt (o : Option Str) : Str :=
  match o with
  | some s => s
  | none => "undefined".toList

/-- Embedding of `Array.prototype.join(sep)`. -/
def joinSep (sep : Str) : List Str → Str
  | [] => []
  | [s] => s
  | s :: rest => s ++ sep ++ joinSep sep rest

/-- Helper of `stripTags`: skip to just past the next closing angle bracket
(the regex consumes the maximal run of non-closing characters and then the
optional closing bracket). -/
def dropTag : Str → Str
  | [] => []
  | c :: rest => if c = '>' then rest else dropTag rest

/-- Recursion core of `stripTags`; the fuel (initially the length of the
string) dominates the number of characters still to be consumed, keeping
the recursion structural. -/
def stripTagsAux : Nat → Str → Str
  | 0, _ => []
  | fuel + 1, s =>
    match s with
    | [] => []
    | c :: rest =>
      if c = '<' then stripTagsAux fuel (dropTag rest) else c :: stripTagsAux fuel rest

/-- Embedding of `.replace(/<[^>]*>?/gm, '')`: remove HTML-tag-shaped spans. -/
def stripTags (s : Str) : Str := stripTagsAux s.length s

/-- The character for the decimal digit `d`. -/
def digitChar (d : Nat) : Char := Char.ofNat (48 + d)

/-- Numeric value of a string of decimal digits. -/
def digitsToNat (s : Str) : Nat :=
  s.foldl (fun a c => 10 * a + (c.toNat - 48)) 0

/-- Helper of `natStr`: decimal digits of `n`, with explicit fuel to keep the
recursion structural. -/
def natStrAux : Nat → Nat → Str
  | 0, _ => []
  | fuel + 1, n => if n = 0 then [] else natStrAux fuel (n / 10) ++ [digitChar (n % 10)]

/-- Decimal representation of a natural number.  This is the model of a
JavaScript timestamp string: `new Date(ms).toISOString()` and its re-parsing
by `new Date(string)` round-trip exactly, which is all the embedded code
relies on, so ISO strings are modelled by decimal millisecond strings. -/
def natStr (n : Nat) : Str :=
  if n = 0 then ['0'] else natStrAux n n

/-- Model of `new Date(string).getTime()`: strings of decimal digits parse to
that many milliseconds since the epoch, every other string is an
Invalid Date (`none`, the JS `NaN`). -/
def parseDate (s : Str) : Option Nat :=
  if s ≠ [] ∧ s.all Char.isDigit then some (digitsToNat s) else none

/-- Embedding of `uri.split('/').pop()`. -/
def lastSegAux : Str → Str → Str
  | [], cur => cur.reverse
  | c :: t, cur => if c = '/' then lastSegAux t [] else lastSegAux t (c :: cur)

/-- Last `/`-separated segment of a string. -/
def lastSeg (s : Str) : Str := lastSegAux s []

/-! ## CacheStore (`src/services/cacheService.js`)

The Supabase `cache` table is embedded as an association list of rows
`(key, value, expires_at)`, with `expires_at` held directly in epoch
milliseconds (ISO timestamp strings round-trip exactly through the date
model above).  The outcome of a single backing-store request is an explicit
input: `SbGetRes.found` for a row, `SbGetRes.err code` for the error object
Supabase returns (`PGRST116` is its "no rows found" code). -/

/-- The backing `cache` table. -/
abbrev Store (α : Type) := List (Str × α × Nat)

/-- Point lookup by key in the backing table. -/
def lookupRow (store : Store α) (k : Str) : Option (α × Nat) :=
  match store with
  | [] => none
  | (k', v, e) :: rest => if k' = k then some (v, e) else lookupRow rest k

/-- Upsert-by-key into the backing table (same key collapses to one row). -/
def upsert (store : Store α) (k : Str) (v : α) (e : Nat) : Store α :=
  match store with
  | [] => [(k, v, e)]
  | (k', v', e') :: rest =>
    if k' = k then (k, v, e) :: rest else (k', v', e') :: upsert rest k v e

/-- Outcome of one `supabase.from('cache').select(...).single()` call. -/
inductive SbGetRes (α : Type) where
  | found (value : α) (expiresAt : Nat)
  | err (code : Str)

/-- The PostgREST code for "no rows found". -/
def pgrstNoRows : Str := "PGRST116".toList

/-- Embedding of `cacheService.get`.  The body throws on a backing-store
error whose code is not `PGRST116`; the surrounding catch turns any throw
into a `null` (miss). -/
def cacheGetE (res : SbGetRes α) (now : Nat) : Except Err (Option α) :=
  let body : Except Err (Option α) :=
    match res with
    | .err code => if code ≠ pgrstNoRows then .error () else .ok none
    | .found v exp => .ok (if now < exp then some v else none)
  match body with
  | .ok r => .ok r
  | .error _ => .ok none

/-- Value computed by `cacheService.get`: miss on any error, hit only while
`expires_at` is strictly in the future. -/
def cacheGetPure (res : SbGetRes α) (now : Nat) : Option α :=
  match res with
  | .err _ => none
  | .found v exp => if now < exp then some v else none

/-- Embedding of `cacheService.set`.  `setFail` injects a failing upsert;
the body then throws and the catch logs and returns, leaving the backing
table unchanged. -/
def cacheSetE (store : Store α) (k : Str) (v : α) (ttlSeconds now : Nat)
    (setFail : Bool) : Except Err (Store α) :=
  let body : Except Err (Store α) :=
    let expires_at := now + ttlSeconds * 1000
    if setFail then .error () else .ok (upsert store k v expires_at)
  match body with
  | .ok s => .ok s
  | .error _ => .ok store

/-- Backing-store response of a reliable store: exactly its current row, or
the `PGRST116` no-rows error. -/
def reliableRes (store : Store α) (k : Str) : SbGetRes α :=
  match lookupRow store k with
  | some (v, e) => .found v e
  | none => .err pgrstNoRows

/-- Extract the value of an `Except` that is known not to be an error. -/
def okD (e : Except Err β) (d : β) : β :=
  match e with
  | .ok b => b
  | .error _ => d

/-- `cacheService.get` against a reliable backing store. -/
def cacheGetRel (store : Store α) (k : Str) (now : Nat) : Option α :=
  okD (cacheGetE (reliableRes store k) now) none

/-! ## FeedIngestor (`fetchRSSFeed` in `src/services/scrapingService.js`)

The outcome of the single `axios.get` + `parseStringPromise` interaction of
one fetch is an explicit input.  `xml2js` output is abstracted to the points
the code inspects: whether parsing rejected, whether `rss.channel`/`feed`
exists, and the merged `item`/`entry` list (the `Array.isArray` wrapping of
a single item is absorbed into the list). -/

/-- A raw feed entry as produced by `xml2js` (fields the code reads). -/
structure RawItem where
  title : Option Str := none
  description : Option Str := none
  summary : Option Str := none
  linkHref : Option Str := none
  link : Option Str := none
  pubDate : Option Str := none
  published : Option Str := none
  updated : Option Str := none
  deriving DecidableEq

/-- A normalized feed item. -/
structure Item where
  id : Str
  title : Str
  description : Str
  link : Str
  pubDate : Str
  source : Str
  feedType : Str
  extractedAt : Str
  deriving DecidableEq

/-- Result of XML parsing: rejection, or a document with or without a
recognizable channel. -/
inductive XmlDoc where
  | malformed
  | parsed (channel : Option (List RawItem))
  deriving DecidableEq

/-- Outcome of the HTTP fetch of one feed. -/
inductive FetchOutcome where
  | netError
  | response (status : Nat) (doc : XmlDoc)
  deriving DecidableEq

/-- Embedding of the per-item mapping inside `fetchRSSFeed`. -/
def mapFeedItem (feedType : Str) (now : Nat) (p : Nat × RawItem) : Item :=
  { id := feedType ++ '_' :: natStr p.1 ++ '_' :: natStr now
    title := jsOrStr p.2.title ("No title".toList)
    description := stripTags (jsOrStr p.2.description (jsOrStr p.2.summary ("No description".toList)))
    link := jsOrStr p.2.linkHref (jsOrStr p.2.link ['#'])
    pubDate := jsOrStr p.2.pubDate (jsOrStr p.2.published (jsOrStr p.2.updated (natStr now)))
    source := ("FEMA ".toList) ++ feedType
    feedType := feedType
    extractedAt := natStr now }

/-- Embedding of `fetchRSSFeed`.  The body throws where the JS awaits can
reject (transport error, XML rejection); the surrounding catch returns an
empty list, as do the explicit non-200 and invalid-structure returns. -/
def fetchRSSFeedE (feedType : Str) (o : FetchOutcome) (now : Nat) :
    Except Err (List Item) :=
  let body : Except Err (List Item) :=
    match o with
    | .netError => .error ()
    | .response status doc =>
      if status ≠ 200 then .ok []
      else
        match doc with
        | .malformed => .error ()
        | .parsed none => .ok []
        | .parsed (some items) => .ok (items.enum.map (mapFeedItem feedType now))
  match body with
  | .ok l => .ok l
  | .error _ => .ok []

/-- Items contributed by one feed fetch. -/
def fetchItems (feedType : Str) (o : FetchOutcome) (now : Nat) : List Item :=
  okD (fetchRSSFeedE feedType o now) []

/-- A feed fetch counts as failed on transport error, non-200 status, XML
rejection, or a document without a recognizable channel. -/
def fetchFailed (o : FetchOutcome) : Bool :=
  match o with
  | .netError => true
  | .response status doc =>
    status ≠ 200 ||
      match doc with
      | .malformed => true
      | .parsed none => true
      | .parsed (some _) => false

/-! ## OfficialUpdatesAggregator (`getOfficialUpdates`) -/

/-- The `DISASTER_KEYWORDS` taxonomy. -/
def disasterKeywordsTable : List (Str × List Str) :=
  [ ("hurricane".toList,
      ["hurricane".toList, "tropical storm".toList, "typhoon".toList, "cyclone".toList]),
    ("flood".toList,
      ["flood".toList, "flooding".toList, "flash flood".toList, "river flood".toList,
        "coastal flood".toList]),
    ("fire".toList,
      ["fire".toList, "wildfire".toList, "forest fire".toList, "brush fire".toList,
        "grass fire".toList]),
    ("tornado".toList,
      ["tornado".toList, "tornadoes".toList, "severe thunderstorm".toList,
        "straight-line winds".toList]),
    ("earthquake".toList,
      ["earthquake".toList, "seismic".toList, "tremor".toList, "aftershock".toList]),
    ("winter".toList,
      ["winter storm".toList, "blizzard".toList, "ice storm".toList, "snow storm".toList,
        "freeze".toList]),
    ("drought".toList,
      ["drought".toList, "dry conditions".toList, "water shortage".toList]),
    ("severe_weather".toList,
      ["severe weather".toList, "thunderstorm".toList, "hail".toList,
        "damaging winds".toList]) ]

/-- Lookup in the taxonomy (`DISASTER_KEYWORDS[disasterType]`). -/
def lookupAssoc (table : List (Str × List Str)) (k : Str) : Option (List Str) :=
  match table with
  | [] => none
  | (k', v) :: rest => if k' = k then some v else lookupAssoc rest k

/-- The lowercased `title + " " + description` text the filters search in. -/
def itemSearchText (it : Item) : Str := lower (it.title ++ ' ' :: it.description)

/-- Disaster-type filter: any synonym of any requested type occurs
(`DISASTER_KEYWORDS[disasterType] || [disasterType]`). -/
def typeFilterPred (dts : List Str) (it : Item) : Bool :=
  dts.any fun dt =>
    ((lookupAssoc disasterKeywordsTable dt).getD [dt]).any fun kw =>
      containsSub (lower kw) (itemSearchText it)

/-- Free-keyword filter: any keyword occurs as a substring. -/
def kwFilterPred (kws : List Str) (it : Item) : Bool :=
  kws.any fun kw => containsSub (lower kw) (itemSearchText it)

/-- State filter: any state name occurs as a substring. -/
def stateFilterPred (sts : List Str) (it : Item) : Bool :=
  sts.any fun st => containsSub (lower st) (itemSearchText it)

/-- Date lower-bound filter (`new Date(item.pubDate) >= fromDate`): a JS
comparison involving an Invalid Date (`NaN`) is false, so an item with an
unparsable date, or an unparsable `dateFrom`, never passes. -/
def dateFilterPred (df : Str) (it : Item) : Bool :=
  match parseDate it.pubDate, parseDate df with
  | some t, some f => decide (f ≤ t)
  | _, _ => false

/-- The caller-supplied filter set of `getOfficialUpdates` after its
destructuring defaults. -/
structure UpdateOptions where
  count : Nat := 10
  disasterTypes : List Str := []
  keywords : List Str := []
  dateFrom : Option Str := none
  states : List Str := []
  deriving DecidableEq

/-- Model of `JSON.stringify(options)`: a canonical serialization of the
query (identical queries give identical keys, which is all the code relies
on). -/
def serializeOpts (o : UpdateOptions) : Str :=
  natStr o.count ++ '|' :: joinSep ['|'] o.disasterTypes
    ++ '|' :: joinSep ['|'] o.keywords
    ++ '|' :: (match o.dateFrom with | some d => d | none => [])
    ++ '|' :: joinSep ['|'] o.states

/-- The cache key of `getOfficialUpdates`. -/
def officialKey (o : UpdateOptions) : Str :=
  ("official-updates:".toList) ++ serializeOpts o

/-- Insertion of `x` in front of the first element it must precede; used to
model `Array.prototype.sort`, which is stable, with comparator-is-`NaN`
pairs (implementation-defined in JS) modelled as keeping the current
order. -/
def insertByRel (r : α → α → Bool) (x : α) : List α → List α
  | [] => [x]
  | y :: ys => if r x y then x :: y :: ys else y :: insertByRel r x ys

/-- Stable sort placing `x` before `y` whenever `r x y`. -/
def sortByRel (r : α → α → Bool) : List α → List α
  | [] => []
  | x :: xs => insertByRel r x (sortByRel r xs)

/-- Sort comparator of `getOfficialUpdates`:
`(a, b) => new Date(b.pubDate) - new Date(a.pubDate)`.  `a` precedes `b`
exactly when the comparator is negative, i.e. `b`'s date is strictly older;
if either date is Invalid the comparator is `NaN` and the order is kept. -/
def newerItem (a b : Item) : Bool :=
  match parseDate b.pubDate, parseDate a.pubDate with
  | some tb, some ta => decide (tb < ta)
  | _, _ => false

/-- The filter pipeline of `getOfficialUpdates`, in source order: disaster
types, free keywords, states, date lower bound; each stage is skipped when
its filter set is empty (for the date, when `dateFrom` is absent or the
empty string, which is falsy). -/
def applyFilters (o : UpdateOptions) (items : List Item) : List Item :=
  let f1 := if o.disasterTypes.isEmpty then items
    else items.filter (typeFilterPred o.disasterTypes)
  let f2 := if o.keywords.isEmpty then f1 else f1.filter (kwFilterPred o.keywords)
  let f3 := if o.states.isEmpty then f2 else f2.filter (stateFilterPred o.states)
  match o.dateFrom with
  | none => f3
  | some df => if df.isEmpty then f3 else f3.filter (dateFilterPred df)

/-- Outcomes of the two concurrent feed fetches of one ingestion round. -/
structure FeedEnv where
  press : FetchOutcome
  disasters : FetchOutcome

/-- Embedding of `getOfficialUpdates`.  Inputs beyond the query: the wall
clock, the backing-store response per key, whether a cache upsert fails,
the two feed outcomes, and the current backing table.  The result carries
the returned items, the table after the call, and the number of feed
fetches issued (0 on a cache hit, 2 for the one ingestion round of a
miss). -/
def getOfficialUpdatesE (opts : UpdateOptions) (now : Nat)
    (sbGet : Str → SbGetRes (List Item)) (setFail : Bool)
    (feeds : FeedEnv) (store : Store (List Item)) :
    Except Err (List Item × Store (List Item) × Nat) :=
  let cacheKey := officialKey opts
  match cacheGetE (sbGet cacheKey) now with
  | .error e => .error e
  | .ok (some cached) => .ok (cached, store, 0)
  | .ok none =>
    let body : Except Err (List Item × Store (List Item) × Nat) :=
      match fetchRSSFeedE ("pressReleases".toList) feeds.press now,
            fetchRSSFeedE ("disasters".toList) feeds.disasters now with
      | .ok pressReleases, .ok disasters =>
        let allItems := pressReleases ++ disasters
        if allItems.isEmpty then .ok ([], store, 2)
        else
          let finalUpdates := (sortByRel newerItem (applyFilters opts allItems)).take opts.count
          match cacheSetE store cacheKey finalUpdates 3600 now setFail with
          | .ok s => .ok (finalUpdates, s, 2)
          | .error e => .error e
      | .error e, _ => .error e
      | _, .error e => .error e
    match body with
    | .ok r => .ok r
    | .error _ => .ok ([], store, 2)

/-- The conjunction the four filters of `getOfficialUpdates` amount to:
disaster-type match AND free-keyword match AND state match AND date lower
bound, every filter passing vacuously when its filter set is empty (for the
date: absent or falsy `dateFrom`).  Each filter's own keyword set is an OR
(`List.any` inside the predicates). -/
def passesFilters (o : UpdateOptions) (it : Item) : Bool :=
  (o.disasterTypes.isEmpty || typeFilterPred o.disasterTypes it)
    && (o.keywords.isEmpty || kwFilterPred o.keywords it)
    && (o.states.isEmpty || stateFilterPred o.states it)
    && (match o.dateFrom with
        | none => true
        | some df => df.isEmpty || dateFilterPred df it)

/-! ## SocialMediaAggregator (`src/services/socialMediaService.js`)

The single Bluesky `searchPosts` interaction of one call is an explicit
`Except` input (a rejected promise and the explicit
`if (!response.success) throw` both appear as `.error`).  `Math.random` is
modelled by two inputs: `rand` (the subset-size draw) and `shuffled`, the
result of `mockPosts.sort(() => 0.5 - Math.random())`, which theorems
constrain to be a permutation of the canned catalog. -/

/-- Engagement counters of a post. -/
structure Engagement where
  likes : Nat
  reposts : Nat
  replies : Nat
  deriving DecidableEq

/-- A formatted social post. -/
structure Post where
  id : Str
  post : Str
  user : Str
  userDisplayName : Option Str
  userAvatar : Option Str
  timestamp : Str
  engagement : Engagement
  relevanceScore : Nat
  platform : Str
  url : Str
  isMockData : Bool
  deriving DecidableEq

/-- Author sub-record of a raw Bluesky post. -/
structure BskyAuthor where
  handle : Option Str := none
  displayName : Option Str := none
  avatar : Option Str := none
  deriving DecidableEq

/-- Record sub-object of a raw Bluesky post. -/
structure BskyRecord where
  text : Str
  createdAt : Str := []
  deriving DecidableEq

/-- A raw post as returned by the Bluesky search endpoint. -/
structure RawPost where
  uri : Str := []
  record : Option BskyRecord := none
  author : BskyAuthor := {}
  likeCount : Option Nat := none
  repostCount : Option Nat := none
  replyCount : Option Nat := none
  deriving DecidableEq

/-- The fixed emergency-indicator terms. -/
def emergencyTerms : List Str :=
  ["urgent".toList, "emergency".toList, "help".toList, "sos".toList,
    "evacuation".toList, "shelter".toList, "relief".toList, "rescue".toList]

/-- The fixed location-indicator terms. -/
def locationTerms : List Str :=
  ["at".toList, "near".toList, "location".toList, "address".toList,
    "street".toList, "building".toList]

/-- The fixed contact/resource-indicator terms. -/
def resourceTerms : List Str :=
  ["available".toList, "offering".toList, "need".toList, "looking for".toList,
    "contact".toList]

/-- Embedding of `calculateRelevanceScore`: +20 per keyword substring, +10
more per keyword in hashtag form, +15/+10/+8 per emergency/location/resource
term present, capped at 100. -/
def calculateRelevanceScore (text : Str) (keywords : List Str) : Nat :=
  let lowerText := lower text
  let score := keywords.foldl (fun score keyword =>
    let keywordLower := lower keyword
    let score := if containsSub keywordLower lowerText then score + 20 else score
    if containsSub ('#' :: keywordLower) lowerText then score + 10 else score) 0
  let score := emergencyTerms.foldl
    (fun score term => if containsSub term lowerText then score + 15 else score) score
  let score := locationTerms.foldl
    (fun score term => if containsSub term lowerText then score + 10 else score) score
  let score := resourceTerms.foldl
    (fun score term => if containsSub term lowerText then score + 8 else score) score
  min score 100

/-- The relevance formula exactly as the specification words it: weighted
counts of matching keywords and indicator terms, clamped to 100. -/
def specRelevanceScore (text : Str) (keywords : List Str) : Nat :=
  let t := lower text
  min (20 * (keywords.countP fun k => containsSub (lower k) t)
      + 10 * (keywords.countP fun k => containsSub ('#' :: lower k) t)
      + 15 * (emergencyTerms.countP fun m => containsSub m t)
      + 10 * (locationTerms.countP fun m => containsSub m t)
      + 8 * (resourceTerms.countP fun m => containsSub m t)) 100

/-- Sort comparator of `formatBlueskyPosts`:
`(a, b) => b.relevanceScore - a.relevanceScore`; `a` precedes `b` exactly
when `b`'s score is strictly smaller. -/
def scoreFirst (a b : Post) : Bool := decide (b.relevanceScore < a.relevanceScore)

/-- Formatting of one raw post that passed the text filter. -/
def mkBskyPost (p : RawPost) (r : BskyRecord) (kws : List Str) : Post :=
  { id := p.uri
    post := r.text
    user := jsOrStr p.author.handle (jsOrStr p.author.displayName ("anonymous".toList))
    userDisplayName := p.author.displayName
    userAvatar := p.author.avatar
    timestamp := r.createdAt
    engagement :=
      { likes := p.likeCount.getD 0
        reposts := p.repostCount.getD 0
        replies := p.replyCount.getD 0 }
    relevanceScore := calculateRelevanceScore r.text kws
    platform := ("bluesky".toList)
    url := ("https://bsky.app/profile/".toList) ++ strOfOpt p.author.handle
      ++ ("/post/".toList) ++ lastSeg p.uri
    isMockData := false }

/-- Embedding of `formatBlueskyPosts`: drop posts without a non-empty text
body, format, sort by relevance descending, cap at 25. -/
def formatBlueskyPosts (posts : List RawPost) (kws : List Str) : List Post :=
  (sortByRel scoreFirst (posts.filterMap fun p =>
    match p.record with
    | some r => if r.text = [] then none else some (mkBskyPost p r kws)
    | none => none)).take 25

/-- The primary interpolation slot: `disasterKeywords[0] || 'disaster'`. -/
def primaryKeyword (kws : List Str) : Str := jsOrStr kws.head? ("disaster".toList)

/-- The secondary interpolation slot: `disasterKeywords[1] || 'emergency'`. -/
def secondaryKeyword (kws : List Str) : Str := jsOrStr kws.tail.head? ("emergency".toList)

/-- Text of the first canned fallback post. -/
def mockText1 (p : Str) : Str :=
  ("URGENT: #".toList) ++ p ++
    (" - Need medical supplies and clean water near downtown area. Red Cross station overwhelmed. Anyone have extras? #emergency #help".toList)

/-- Text of the second canned fallback post. -/
def mockText2 (p : Str) : Str :=
  ("UPDATE: Emergency shelter at Lincoln High School (456 Oak Ave) has space for 150 more people. Hot meals available. Pet-friendly! #".toList)
    ++ p ++ (" #shelter #relief".toList)

/-- Text of the third canned fallback post (the source text contains an
apostrophe, written here by code point). -/
def mockText3 (p s : Str) : Str :=
  ("Volunteers needed at Community Center! We".toList) ++ [Char.ofNat 39] ++
    ("re organizing supply distribution for #".toList) ++ p ++
    (" relief. Shifts 8am-2pm & 2pm-8pm. #volunteer #".toList) ++ s

/-- Text of the fourth canned fallback post. -/
def mockText4 (p : Str) : Str :=
  ("Free resources available at 789 Maple Street: blankets, non-perishables, baby supplies, phone charging station. Open 24/7 during #".toList)
    ++ p ++ (" response. #help #community".toList)

/-- Text of the fifth canned fallback post. -/
def mockText5 (p : Str) : Str :=
  ("Transportation help: Running shuttle service from Park & Main to evacuation centers every 30 mins. Free rides during #".toList)
    ++ p ++ (". Look for blue van. #evacuation #transport".toList)

/-- Text of the sixth canned fallback post. -/
def mockText6 (p : Str) : Str :=
  ("INFO: For #".toList) ++ p ++
    (" updates, tune to emergency radio 1610 AM or text ALERTS to 67283. Official evacuation routes posted at city website. Stay safe everyone! #info #safety".toList)

/-- The canned fallback catalog of `getFallbackMockData`, interpolated with
the primary and secondary keyword slots. -/
def mockPosts (kws : List Str) (now : Nat) : List Post :=
  let p := primaryKeyword kws
  let s := secondaryKeyword kws
  [ { id := ("mock-urgent-1".toList), post := mockText1 p,
      user := ("localhelper.bsky.social".toList),
      userDisplayName := some ("Community Helper".toList), userAvatar := none,
      timestamp := natStr (now - 180000), engagement := ⟨18, 12, 5⟩,
      relevanceScore := 95, platform := ("bluesky".toList),
      url := ("https://bsky.app/profile/localhelper.bsky.social/post/mock1".toList),
      isMockData := true },
    { id := ("mock-shelter-2".toList), post := mockText2 p,
      user := ("emergencycoord.bsky.social".toList),
      userDisplayName := some ("Emergency Coordinator".toList), userAvatar := none,
      timestamp := natStr (now - 420000), engagement := ⟨67, 45, 8⟩,
      relevanceScore := 90, platform := ("bluesky".toList),
      url := ("https://bsky.app/profile/emergencycoord.bsky.social/post/mock2".toList),
      isMockData := true },
    { id := ("mock-volunteer-3".toList), post := mockText3 p s,
      user := ("volunteers4good.bsky.social".toList),
      userDisplayName := some ("Volunteer Network".toList), userAvatar := none,
      timestamp := natStr (now - 600000), engagement := ⟨34, 28, 15⟩,
      relevanceScore := 85, platform := ("bluesky".toList),
      url := ("https://bsky.app/profile/volunteers4good.bsky.social/post/mock3".toList),
      isMockData := true },
    { id := ("mock-resources-4".toList), post := mockText4 p,
      user := ("mutualaid.bsky.social".toList),
      userDisplayName := some ("Mutual Aid Network".toList), userAvatar := none,
      timestamp := natStr (now - 900000), engagement := ⟨52, 38, 22⟩,
      relevanceScore := 80, platform := ("bluesky".toList),
      url := ("https://bsky.app/profile/mutualaid.bsky.social/post/mock4".toList),
      isMockData := true },
    { id := ("mock-transport-5".toList), post := mockText5 p,
      user := ("rideshare.bsky.social".toList),
      userDisplayName := some ("Community Rides".toList), userAvatar := none,
      timestamp := natStr (now - 1200000), engagement := ⟨41, 29, 11⟩,
      relevanceScore := 75, platform := ("bluesky".toList),
      url := ("https://bsky.app/profile/rideshare.bsky.social/post/mock5".toList),
      isMockData := true },
    { id := ("mock-info-6".toList), post := mockText6 p,
      user := ("cityemergency.bsky.social".toList),
      userDisplayName := some ("City Emergency Services".toList), userAvatar := none,
      timestamp := natStr (now - 1500000), engagement := ⟨89, 67, 18⟩,
      relevanceScore := 70, platform := ("bluesky".toList),
      url := ("https://bsky.app/profile/cityemergency.bsky.social/post/mock6".toList),
      isMockData := true } ]

/-- Embedding of the tail of `getFallbackMockData`: keep the first
`Math.floor(Math.random() * 3) + 3` of the shuffled catalog. -/
def getFallbackMockData (rand : Nat) (shuffled : List Post) : List Post :=
  shuffled.take (rand % 3 + 3)

/-- The cache key of `getBlueskyReports`. -/
def blueskyKey (kws : List Str) (sortBy lang : Str) : Str :=
  ("bluesky:".toList) ++ joinSep ['-'] kws ++ ':' :: sortBy ++ ':' :: lang

/-- Embedding of the search-query construction of `getBlueskyReports`
(an absent keyword prints as "undefined" inside the template literal). -/
def buildBlueskyQuery (kws : List Str) : Str :=
  if kws.length > 1 then
    let fullPhrase := joinSep [' '] kws
    let hashtagQuery := joinSep (" OR ".toList) (kws.map fun k => '#' :: k)
    '"' :: fullPhrase ++ '"' :: (" OR ".toList) ++ hashtagQuery
      ++ (" OR ".toList) ++ fullPhrase
  else
    let keyword := strOfOpt kws.head?
    '#' :: keyword ++ (" OR ".toList) ++ keyword

/-- Embedding of `getBlueskyReports`: cache check, live search, formatting,
the empty-result mock fallback cached for 60 s, genuine results cached for
180 s, and the catch-all fallback (also cached for 60 s) around the
throwing search. -/
def getBlueskyReportsE (kws : List Str) (sortBy lang : Str) (maxResults : Nat)
    (sbGet : Str → SbGetRes (List Post)) (setFail : Bool)
    (search : Except Err (List RawPost)) (rand : Nat) (shuffled : List Post)
    (store : Store (List Post)) (now : Nat) :
    Except Err (List Post × Store (List Post)) :=
  let cacheKey := blueskyKey kws sortBy lang
  match cacheGetE (sbGet cacheKey) now with
  | .error e => .error e
  | .ok (some cached) => .ok (cached, store)
  | .ok none =>
    let body : Except Err (List Post × Store (List Post)) :=
      match search with
      | .error e => .error e
      | .ok rawPosts =>
        let formattedPosts := formatBlueskyPosts rawPosts kws
        if formattedPosts.isEmpty then
          let mockData := getFallbackMockData rand shuffled
          match cacheSetE store cacheKey mockData 60 now setFail with
          | .ok s => .ok (mockData, s)
          | .error e => .error e
        else
          match cacheSetE store cacheKey formattedPosts 180 now setFail with
          | .ok s => .ok (formattedPosts, s)
          | .error e => .error e
    match body with
    | .ok r => .ok r
    | .error _ =>
      let mockData := getFallbackMockData rand shuffled
      match cacheSetE store cacheKey mockData 60 now setFail with
      | .ok s => .ok (mockData, s)
      | .error e => .error e


/-- The combined item list of one ingestion round (press releases first,
then disaster declarations, as in `[...pressReleases, ...disasters]`). -/
def officialAllItems (feeds : FeedEnv) (now : Nat) : List Item :=
  fetchItems ("pressReleases".toList) feeds.press now
    ++ fetchItems ("disasters".toList) feeds.disasters now

/-- The filtered, sorted and truncated result computed by a cache-missing
`getOfficialUpdates` call whose combined item list is non-empty. -/
def officialResult (opts : UpdateOptions) (feeds : FeedEnv) (now : Nat) : List Item :=
  (sortByRel newerItem (applyFilters opts (officialAllItems feeds now))).take opts.count

/-! ### Concrete fixtures used by the scenario theorems -/

/-- The keyword list of the flood scenarios. -/
def floodKw : List Str := [("flood".toList)]

/-- First raw post of the two-post scoring scenario. -/
def rawFlood1 : RawPost :=
  { uri := ("at://did:plc:alpha/app.bsky.feed.post/p1".toList)
    record := some { text := ("Need shelter near #flood area".toList), createdAt := ("1111".toList) }
    author := { handle := some ("a.bsky.social".toList), displayName := some ("Alpha".toList) }
    likeCount := some 2
    repostCount := some 1
    replyCount := some 0 }

/-- Second raw post of the two-post scoring scenario. -/
def rawFlood2 : RawPost :=
  { uri := ("at://did:plc:beta/app.bsky.feed.post/p2".toList)
    record := some { text := ("just chatting".toList), createdAt := ("2222".toList) }
    author := { handle := some ("b.bsky.social".toList) } }

/-- A raw feed item whose `pubDate` is present but not parsable as a date. -/
def garbageDateRaw : RawItem :=
  { title := some ("Flooding downtown".toList)
    description := some ("flood".toList)
    pubDate := some ("garbage".toList) }

/-- Query asking only for updates no older than epoch millisecond 5. -/
def dateFromOpts : UpdateOptions := { dateFrom := some ("5".toList) }

/-- Feed outcomes delivering exactly the unparsable-date item. -/
def garbageDateFeeds : FeedEnv :=
  { press := .response 200 (.parsed (some [garbageDateRaw]))
    disasters := .response 200 (.parsed (some [])) }

/-- A raw feed item about a wildfire, published at epoch millisecond 5. -/
def fireRaw : RawItem :=
  { title := some ("Wildfire declared in County X".toList)
    description := some ("Evacuations under way".toList)
    pubDate := some ("5".toList) }

/-- Query with a fire disaster-type filter and a `dateFrom` later than every
item in the feeds. -/
def fireFutureOpts : UpdateOptions :=
  { disasterTypes := [("fire".toList)], dateFrom := some ("99".toList) }

/-- Feed outcomes delivering exactly the wildfire item. -/
def fireFeeds : FeedEnv :=
  { press := .response 200 (.parsed (some [fireRaw])), disasters := .netError }

/-- Feed outcomes of the first idempotence call. -/
def idemFeeds1 : FeedEnv :=
  { press := .netError, disasters := .response 200 (.parsed (some [fireRaw])) }

/-- Feed outcomes offered to the second idempotence call (never fetched). -/
def idemFeeds2 : FeedEnv := { press := .netError, disasters := .netError }

/-- A backing store for item lists that always reports no rows. -/
def sbMissItems : Str → SbGetRes (List Item) := fun _ => .err pgrstNoRows

/-- A backing store for post lists that always reports no rows. -/
def sbMissPosts : Str → SbGetRes (List Post) := fun _ => .err pgrstNoRows

/-! # Supporting lemmas -/

/-! ### Basic facts about the string model -/

theorem isPrefixOf_append_self (n t : Str) : n.isPrefixOf (n ++ t) = true := by
  induction n with
  | nil => simp [List.isPrefixOf]
  | cons c cs ih => simp [List.isPrefixOf, ih]

theorem containsSub_of_isPrefixOf {n h : Str} (hp : n.isPrefixOf h = true) :
    containsSub n h = true := by
  cases h <;> simp [containsSub, hp]

theorem containsSub_cons_of {n h : Str} (c : Char) (hc : containsSub n h = true) :
    containsSub n (c :: h) = true := by
  simp [containsSub, hc]

theorem containsSub_append_left {n h : Str} (pre : Str) (hc : containsSub n h = true) :
    containsSub n (pre ++ h) = true := by
  induction pre with
  | nil => simpa using hc
  | cons c cs ih => simpa using containsSub_cons_of c ih

theorem containsSub_mid (pre post n : Str) :
    containsSub n (pre ++ (n ++ post)) = true :=
  containsSub_append_left pre (containsSub_of_isPrefixOf (isPrefixOf_append_self n post))

theorem containsSub_sandwich (pre post n : Str) :
    containsSub n (pre ++ n ++ post) = true := by
  rw [List.append_assoc]
  exact containsSub_mid pre post n

theorem containsSub_nil_left (h : Str) : containsSub [] h = true := by
  cases h <;> simp [containsSub, List.isPrefixOf]

theorem containsSub_nil_right {n : Str} (hn : n ≠ []) : containsSub n [] = false := by
  cases n with
  | nil => exact absurd rfl hn
  | cons c cs => simp [containsSub, List.isPrefixOf]

theorem natStrAux_zero (fuel : Nat) : natStrAux fuel 0 = [] := by
  cases fuel <;> simp [natStrAux]

theorem digitsToNat_append (s : Str) (c : Char) :
    digitsToNat (s ++ [c]) = 10 * digitsToNat s + (c.toNat - 48) := by
  simp [digitsToNat, List.foldl_append]

theorem digitChar_isDigit : ∀ d, d < 10 → (digitChar d).isDigit = true := by decide

theorem digitChar_toNat : ∀ d, d < 10 → (digitChar d).toNat = 48 + d := by decide

theorem natStrAux_spec : ∀ fuel n, n ≠ 0 → n ≤ fuel →
    natStrAux fuel n ≠ [] ∧ (natStrAux fuel n).all Char.isDigit = true ∧
      digitsToNat (natStrAux fuel n) = n := by
  intro fuel
  induction fuel with
  | zero => intro n hn hle; omega
  | succ f ih =>
    intro n hn hle
    simp only [natStrAux, if_neg hn]
    by_cases hq : n / 10 = 0
    · have hlt : n % 10 < 10 := Nat.mod_lt _ (by omega)
      have hmod : n % 10 = n := by omega
      rw [hq, natStrAux_zero]
      refine ⟨by simp, by simp [digitChar_isDigit _ hlt], ?_⟩
      simp [digitsToNat, digitChar_toNat _ hlt]
      omega
    · have hdiv : n / 10 ≤ f := by
        have := Nat.div_lt_self (Nat.pos_of_ne_zero hn) (by omega : 1 < 10)
        omega
      obtain ⟨hne, hall, hval⟩ := ih (n / 10) hq hdiv
      have hlt : n % 10 < 10 := Nat.mod_lt _ (by omega)
      refine ⟨by simp, ?_, ?_⟩
      · simp [List.all_append, hall, digitChar_isDigit _ hlt]
      · rw [digitsToNat_append, hval, digitChar_toNat _ hlt]
        omega

theorem parseDate_natStr (n : Nat) : parseDate (natStr n) = some n := by
  by_cases h : n = 0
  · subst h; decide
  · obtain ⟨hne, hall, hval⟩ := natStrAux_spec n n h (Nat.le_refl n)
    simp [natStr, h, parseDate, hne, hall, hval]

theorem cacheGetE_eq (res : SbGetRes α) (now : Nat) :
    cacheGetE res now = .ok (cacheGetPure res now) := by
  cases res with
  | err code => by_cases h : code = pgrstNoRows <;> simp [cacheGetE, cacheGetPure, h]
  | found v exp => rfl

theorem cacheSetE_eq (store : Store α) (k : Str) (v : α) (ttl now : Nat) (setFail : Bool) :
    cacheSetE store k v ttl now setFail =
      .ok (if setFail then store else upsert store k v (now + ttl * 1000)) := by
  cases setFail <;> rfl

theorem lookupRow_upsert_self (store : Store α) (k : Str) (v : α) (e : Nat) :
    lookupRow (upsert store k v e) k = some (v, e) := by
  induction store with
  | nil => simp [upsert, lookupRow]
  | cons row rest ih =>
    obtain ⟨k', v', e'⟩ := row
    by_cases h : k' = k <;> simp [upsert, lookupRow, h, ih]

theorem cacheGetRel_eq (store : Store α) (k : Str) (now : Nat) :
    cacheGetRel store k now =
      match lookupRow store k with
      | some (v, e) => if now < e then some v else none
      | none => none := by
  unfold cacheGetRel reliableRes
  cases hl : lookupRow store k with
  | none => simp [cacheGetE_eq, cacheGetPure, okD]
  | some ve => obtain ⟨v, e⟩ := ve; simp [cacheGetE_eq, cacheGetPure, okD]

theorem fetchRSSFeedE_eq (feedType : Str) (o : FetchOutcome) (now : Nat) :
    fetchRSSFeedE feedType o now = .ok (fetchItems feedType o now) := by
  cases o with
  | netError => rfl
  | response status doc =>
    by_cases h : status = 200
    · subst h; cases doc with
      | malformed => rfl
      | parsed channel => cases channel <;> rfl
    · simp [fetchRSSFeedE, fetchItems, okD, h]

theorem mem_insertByRel {r : α → α → Bool} {x a : α} {l : List α} :
    a ∈ insertByRel r x l ↔ a = x ∨ a ∈ l := by
  induction l with
  | nil => simp [insertByRel]
  | cons y ys ih =>
    simp only [insertByRel]
    split
    · simp
    · simp [ih]; tauto

theorem mem_sortByRel {r : α → α → Bool} {a : α} {l : List α} :
    a ∈ sortByRel r l ↔ a ∈ l := by
  induction l with
  | nil => simp [sortByRel]
  | cons x xs ih => simp [sortByRel, mem_insertByRel, ih]

theorem filter_guard {α : Type} (e : Bool) (p : α → Bool) (l : List α) :
    (if e then l else l.filter p) = l.filter fun a => e || p a := by
  cases e <;> simp

theorem bool_comm3 (a b c : Bool) : ((c && b) && a) = (((a && b) && c) && true) := by
  cases a <;> cases b <;> cases c <;> rfl

theorem bool_comm4 (a b c d : Bool) : (d && ((c && b) && a)) = (((a && b) && c) && d) := by
  cases a <;> cases b <;> cases c <;> cases d <;> rfl

theorem applyFilters_eq (o : UpdateOptions) (items : List Item) :
    applyFilters o items = items.filter (passesFilters o) := by
  unfold applyFilters
  dsimp only
  rw [filter_guard, filter_guard, filter_guard, List.filter_filter, List.filter_filter]
  cases hdf : o.dateFrom with
  | none =>
    refine List.filter_congr fun it _ => ?_
    simp only [passesFilters, hdf]
    exact bool_comm3 _ _ _
  | some df =>
    dsimp only
    rw [filter_guard, List.filter_filter]
    refine List.filter_congr fun it _ => ?_
    simp only [passesFilters, hdf]
    exact bool_comm4 _ _ _ _

theorem foldl_score1 {α : Type} (l : List α) (p : α → Bool) (w a : Nat) :
    l.foldl (fun s x => if p x then s + w else s) a = a + w * l.countP p := by
  induction l generalizing a with
  | nil => simp
  | cons x xs ih =>
    rw [List.foldl_cons, List.countP_cons, ih]
    by_cases h : p x <;> simp [h] <;> ring

theorem foldl_score2 {α : Type} (l : List α) (p q : α → Bool) (w1 w2 a : Nat) :
    l.foldl (fun s x =>
        if q x then (if p x then s + w1 else s) + w2 else (if p x then s + w1 else s)) a
      = a + w1 * l.countP p + w2 * l.countP q := by
  induction l generalizing a with
  | nil => simp
  | cons x xs ih =>
    rw [List.foldl_cons, List.countP_cons, List.countP_cons, ih]
    by_cases h1 : p x <;> by_cases h2 : q x <;> simp [h1, h2] <;> ring

theorem calculateRelevanceScore_eq_spec (text : Str) (kws : List Str) :
    calculateRelevanceScore text kws = specRelevanceScore text kws := by
  unfold calculateRelevanceScore specRelevanceScore
  dsimp only
  rw [foldl_score2 kws (fun k => containsSub (lower k) (lower text))
        (fun k => containsSub ('#' :: lower k) (lower text)) 20 10 0,
      foldl_score1, foldl_score1, foldl_score1]
  congr 1
  ring

theorem calculateRelevanceScore_le (text : Str) (kws : List Str) :
    calculateRelevanceScore text kws ≤ 100 := by
  unfold calculateRelevanceScore
  exact Nat.min_le_right _ _

/-! ### Path lemmas for the two aggregators -/

theorem getOfficialUpdatesE_hit (opts : UpdateOptions) (now : Nat)
    (sbGet : Str → SbGetRes (List Item)) (setFail : Bool) (feeds : FeedEnv)
    (store : Store (List Item)) (cached : List Item)
    (h : cacheGetE (sbGet (officialKey opts)) now = .ok (some cached)) :
    getOfficialUpdatesE opts now sbGet setFail feeds store = .ok (cached, store, 0) := by
  unfold getOfficialUpdatesE
  dsimp only
  rw [h]

theorem getOfficialUpdatesE_miss_empty (opts : UpdateOptions) (now : Nat)
    (sbGet : Str → SbGetRes (List Item)) (setFail : Bool) (feeds : FeedEnv)
    (store : Store (List Item))
    (h : cacheGetE (sbGet (officialKey opts)) now = .ok none)
    (he : officialAllItems feeds now = []) :
    getOfficialUpdatesE opts now sbGet setFail feeds store = .ok ([], store, 2) := by
  unfold getOfficialUpdatesE
  dsimp only
  rw [h]
  dsimp only
  rw [fetchRSSFeedE_eq, fetchRSSFeedE_eq]
  dsimp only
  rw [show fetchItems ("pressReleases".toList) feeds.press now
      ++ fetchItems ("disasters".toList) feeds.disasters now = officialAllItems feeds now from rfl,
    he]
  rfl

theorem getOfficialUpdatesE_miss_run (opts : UpdateOptions) (now : Nat)
    (sbGet : Str → SbGetRes (List Item)) (setFail : Bool) (feeds : FeedEnv)
    (store : Store (List Item))
    (h : cacheGetE (sbGet (officialKey opts)) now = .ok none)
    (hne : officialAllItems feeds now ≠ []) :
    getOfficialUpdatesE opts now sbGet setFail feeds store =
      .ok (officialResult opts feeds now,
        if setFail then store
        else upsert store (officialKey opts) (officialResult opts feeds now) (now + 3600 * 1000),
        2) := by
  unfold getOfficialUpdatesE
  dsimp only
  rw [h]
  dsimp only
  rw [fetchRSSFeedE_eq, fetchRSSFeedE_eq]
  dsimp only
  rw [show fetchItems ("pressReleases".toList) feeds.press now
      ++ fetchItems ("disasters".toList) feeds.disasters now = officialAllItems feeds now from rfl]
  have hb : (officialAllItems feeds now).isEmpty = false := by
    cases hl : officialAllItems feeds now
    · exact absurd hl hne
    · rfl
  rw [hb]
  cases setFail <;> rfl

theorem getOfficialUpdatesE_isOk (opts : UpdateOptions) (now : Nat)
    (sbGet : Str → SbGetRes (List Item)) (setFail : Bool) (feeds : FeedEnv)
    (store : Store (List Item)) :
    ∃ r, getOfficialUpdatesE opts now sbGet setFail feeds store = .ok r := by
  cases hc : cacheGetPure (sbGet (officialKey opts)) now with
  | some cached =>
    exact ⟨_, getOfficialUpdatesE_hit opts now sbGet setFail feeds store cached
      (by rw [cacheGetE_eq, hc])⟩
  | none =>
    by_cases he : officialAllItems feeds now = []
    · exact ⟨_, getOfficialUpdatesE_miss_empty opts now sbGet setFail feeds store
        (by rw [cacheGetE_eq, hc]) he⟩
    · exact ⟨_, getOfficialUpdatesE_miss_run opts now sbGet setFail feeds store
        (by rw [cacheGetE_eq, hc]) he⟩

theorem getBlueskyReportsE_hit (kws : List Str) (sortBy lang : Str) (mr : Nat)
    (sbGet : Str → SbGetRes (List Post)) (setFail : Bool)
    (search : Except Err (List RawPost)) (rand : Nat) (shuffled : List Post)
    (store : Store (List Post)) (now : Nat) (cached : List Post)
    (h : cacheGetE (sbGet (blueskyKey kws sortBy lang)) now = .ok (some cached)) :
    getBlueskyReportsE kws sortBy lang mr sbGet setFail search rand shuffled store now
      = .ok (cached, store) := by
  unfold getBlueskyReportsE
  dsimp only
  rw [h]

theorem getBlueskyReportsE_fallback (kws : List Str) (sortBy lang : Str) (mr : Nat)
    (sbGet : Str → SbGetRes (List Post)) (setFail : Bool)
    (search : Except Err (List RawPost)) (rand : Nat) (shuffled : List Post)
    (store : Store (List Post)) (now : Nat)
    (h : cacheGetE (sbGet (blueskyKey kws sortBy lang)) now = .ok none)
    (hfail : search = .error () ∨ ∃ raw, search = .ok raw ∧ formatBlueskyPosts raw kws = []) :
    getBlueskyReportsE kws sortBy lang mr sbGet setFail search rand shuffled store now
      = .ok (getFallbackMockData rand shuffled,
          if setFail then store
          else upsert store (blueskyKey kws sortBy lang) (getFallbackMockData rand shuffled)
            (now + 60 * 1000)) := by
  unfold getBlueskyReportsE
  dsimp only
  rw [h]
  dsimp only
  rcases hfail with hs | ⟨raw, hs, hempty⟩
  · rw [hs, cacheSetE_eq]
  · rw [hs]
    dsimp only
    rw [show (formatBlueskyPosts raw kws).isEmpty = true from List.isEmpty_iff.mpr hempty,
      cacheSetE_eq]
    cases setFail <;> rfl

theorem getBlueskyReportsE_genuine (kws : List Str) (sortBy lang : Str) (mr : Nat)
    (sbGet : Str → SbGetRes (List Post)) (setFail : Bool)
    (raw : List RawPost) (rand : Nat) (shuffled : List Post)
    (store : Store (List Post)) (now : Nat)
    (h : cacheGetE (sbGet (blueskyKey kws sortBy lang)) now = .ok none)
    (hne : formatBlueskyPosts raw kws ≠ []) :
    getBlueskyReportsE kws sortBy lang mr sbGet setFail (.ok raw) rand shuffled store now
      = .ok (formatBlueskyPosts raw kws,
          if setFail then store
          else upsert store (blueskyKey kws sortBy lang) (formatBlueskyPosts raw kws)
            (now + 180 * 1000)) := by
  unfold getBlueskyReportsE
  dsimp only
  rw [h]
  dsimp only
  have hb : (formatBlueskyPosts raw kws).isEmpty = false := by
    cases hl : formatBlueskyPosts raw kws
    · exact absurd hl hne
    · rfl
  rw [hb, cacheSetE_eq]
  cases setFail <;> rfl

theorem getBlueskyReportsE_isOk (kws : List Str) (sortBy lang : Str) (mr : Nat)
    (sbGet : Str → SbGetRes (List Post)) (setFail : Bool)
    (search : Except Err (List RawPost)) (rand : Nat) (shuffled : List Post)
    (store : Store (List Post)) (now : Nat) :
    ∃ r, getBlueskyReportsE kws sortBy lang mr sbGet setFail search rand shuffled store now
      = .ok r := by
  cases hc : cacheGetPure (sbGet (blueskyKey kws sortBy lang)) now with
  | some cached =>
    exact ⟨_, getBlueskyReportsE_hit kws sortBy lang mr sbGet setFail search rand shuffled
      store now cached (by rw [cacheGetE_eq, hc])⟩
  | none =>
    cases search with
    | error e =>
      exact ⟨_, getBlueskyReportsE_fallback kws sortBy lang mr sbGet setFail _ rand shuffled
        store now (by rw [cacheGetE_eq, hc]) (Or.inl rfl)⟩
    | ok raw =>
      by_cases hne : formatBlueskyPosts raw kws = []
      · exact ⟨_, getBlueskyReportsE_fallback kws sortBy lang mr sbGet setFail _ rand shuffled
          store now (by rw [cacheGetE_eq, hc]) (Or.inr ⟨raw, rfl, hne⟩)⟩
      · exact ⟨_, getBlueskyReportsE_genuine kws sortBy lang mr sbGet setFail raw rand shuffled
          store now (by rw [cacheGetE_eq, hc]) hne⟩

/-! ### Facts about the canned fallback catalog -/

theorem mockPosts_length (kws : List Str) (now : Nat) : (mockPosts kws now).length = 6 := rfl

theorem mockPosts_isMockData {kws : List Str} {now : Nat} {p : Post}
    (hp : p ∈ mockPosts kws now) : p.isMockData = true := by
  simp only [mockPosts, List.mem_cons, List.not_mem_nil, or_false] at hp
  rcases hp with rfl | rfl | rfl | rfl | rfl | rfl <;> rfl

theorem mockPosts_contains_head {kws : List Str} {now : Nat} {p : Post}
    (hp : p ∈ mockPosts kws now) {k0 : Str} (h : kws.head? = some k0) :
    containsSub k0 p.post = true := by
  by_cases hk : k0 = []
  · subst hk
    exact containsSub_nil_left _
  · have hpk : primaryKeyword kws = k0 := by
      simp [primaryKeyword, h, jsOrStr, hk]
    simp only [mockPosts, List.mem_cons, List.not_mem_nil, or_false] at hp
    rcases hp with rfl | rfl | rfl | rfl | rfl | rfl <;>
      simp only [mockText1, mockText2, mockText3, mockText4, mockText5, mockText6, hpk] <;>
      first
        | exact containsSub_sandwich _ _ _
        | (rw [List.append_assoc]; exact containsSub_sandwich _ _ _)

theorem getFallbackMockData_length {shuffled : List Post} (hlen : shuffled.length = 6)
    (rand : Nat) : (getFallbackMockData rand shuffled).length = rand % 3 + 3 := by
  unfold getFallbackMockData
  rw [List.length_take, hlen]
  have hmod : rand % 3 < 3 := Nat.mod_lt _ (by omega)
  exact Nat.min_eq_left (by omega)

/-! # Claim theorems -/

/-- Claim C1, counterexample.  The claim promises a hit "as long as the
wall-clock has not exceeded ttl seconds past the set".  Setting at time 0
with `ttl = 1` gives the expiry instant 1000 ms; at `t = 1000` the clock has
not exceeded that instant, yet the reliable store reports a miss, because
`cacheService.get` demands `expires_at` to be strictly in the future.  The
row itself still exists. -/
theorem cacheStore_expiry_boundary_counterexample :
    1000 ≤ 0 + 1 * 1000
    ∧ cacheGetRel (okD (cacheSetE ([] : Store Nat) ("k".toList) 7 1 0 false) []) ("k".toList) 1000
        = none
    ∧ lookupRow (okD (cacheSetE ([] : Store Nat) ("k".toList) 7 1 0 false) []) ("k".toList)
        ≠ none := by
  refine ⟨by omega, rfl, by decide⟩

/-- Claim C1, amended: after a successful `set(k, v, ttl)` against a reliable
backing store, `get(k)` returns `v` at every instant strictly before `ttl`
seconds past the set, and from the expiry instant onward it returns a miss
even though the row still exists in the backing store (lazy expiry, no
deletion). -/
theorem cacheStore_set_get_amended {α : Type} (store : Store α) (k : Str) (v : α)
    (ttl now t : Nat) :
    (t < now + ttl * 1000 →
      cacheGetRel (okD (cacheSetE store k v ttl now false) store) k t = some v)
    ∧ (now + ttl * 1000 ≤ t →
      cacheGetRel (okD (cacheSetE store k v ttl now false) store) k t = none
      ∧ lookupRow (okD (cacheSetE store k v ttl now false) store) k ≠ none) := by
  have hset : okD (cacheSetE store k v ttl now false) store
      = upsert store k v (now + ttl * 1000) := by
    rw [cacheSetE_eq]
    rfl
  rw [hset]
  constructor
  · intro ht
    rw [cacheGetRel_eq, lookupRow_upsert_self]
    simp [ht]
  · intro ht
    constructor
    · rw [cacheGetRel_eq, lookupRow_upsert_self]
      simp [Nat.not_lt.mpr ht]
    · rw [lookupRow_upsert_self]
      simp

/-- Claim C1 witness: a concrete set at time 0 with `ttl = 2` is a hit at
millisecond 1999 and a miss at millisecond 2000. -/
theorem cacheStore_set_get_amended_witness :
    cacheGetRel (okD (cacheSetE ([] : Store Nat) ("k".toList) 7 2 0 false) []) ("k".toList) 1999
        = some 7
    ∧ cacheGetRel (okD (cacheSetE ([] : Store Nat) ("k".toList) 7 2 0 false) []) ("k".toList) 2000
        = none :=
  ⟨(cacheStore_set_get_amended [] ("k".toList) 7 2 0 1999).1 (by omega),
   ((cacheStore_set_get_amended [] ("k".toList) 7 2 0 2000).2 (by omega)).1⟩

/-- Claim C2: no public operation propagates an exception.  For every input
and every injected collaborator failure, `cacheService.get` returns a miss
on a backing-store error of any code, `cacheService.set` returns normally
(leaving the table unchanged on failure), and `getOfficialUpdates` and
`getBlueskyReports` always return an ordinary (`.ok`) best-effort result. -/
theorem public_ops_never_throw :
    (∀ (α : Type) (code : Str) (now : Nat),
        cacheGetE (SbGetRes.err (α := α) code) now = .ok none)
    ∧ (∀ (α : Type) (store : Store α) (k : Str) (v : α) (ttl now : Nat) (setFail : Bool),
        ∃ s, cacheSetE store k v ttl now setFail = .ok s)
    ∧ (∀ (opts : UpdateOptions) (now : Nat) (sbGet : Str → SbGetRes (List Item))
        (setFail : Bool) (feeds : FeedEnv) (store : Store (List Item)),
        ∃ r, getOfficialUpdatesE opts now sbGet setFail feeds store = .ok r)
    ∧ (∀ (kws : List Str) (sortBy lang : Str) (mr : Nat) (sbGet : Str → SbGetRes (List Post))
        (setFail : Bool) (search : Except Err (List RawPost)) (rand : Nat)
        (shuffled : List Post) (store : Store (List Post)) (now : Nat),
        ∃ r, getBlueskyReportsE kws sortBy lang mr sbGet setFail search rand shuffled store now
          = .ok r) := by
  refine ⟨?_, ?_, ?_, ?_⟩
  · intro α code now
    rw [cacheGetE_eq]
    rfl
  · intro α store k v ttl now setFail
    exact ⟨_, cacheSetE_eq store k v ttl now setFail⟩
  · exact getOfficialUpdatesE_isOk
  · exact getBlueskyReportsE_isOk

/-- Claim C3: on a cache miss, if the live search throws or formatting
yields zero usable posts, `getBlueskyReports` returns between 3 and 5 posts
of the shuffled canned catalog, all flagged as synthetic (`isMockData`),
each containing the first supplied keyword in its text, and writes this
fallback under the constructed cache key with a 60-second TTL; a non-empty
genuine result is instead cached with a 180-second TTL. -/
theorem bluesky_fallback_and_ttl :
    (∀ (kws : List Str) (sortBy lang : Str) (mr : Nat) (sbGet : Str → SbGetRes (List Post))
        (search : Except Err (List RawPost)) (rand : Nat) (shuffled : List Post)
        (store : Store (List Post)) (now : Nat),
      cacheGetE (sbGet (blueskyKey kws sortBy lang)) now = .ok none →
      shuffled.Perm (mockPosts kws now) →
      (search = .error () ∨ ∃ raw, search = .ok raw ∧ formatBlueskyPosts raw kws = []) →
      getBlueskyReportsE kws sortBy lang mr sbGet false search rand shuffled store now
          = .ok (getFallbackMockData rand shuffled,
              upsert store (blueskyKey kws sortBy lang) (getFallbackMockData rand shuffled)
                (now + 60 * 1000))
        ∧ 3 ≤ (getFallbackMockData rand shuffled).length
        ∧ (getFallbackMockData rand shuffled).length ≤ 5
        ∧ (∀ p ∈ getFallbackMockData rand shuffled, p.isMockData = true
            ∧ ∀ k0, kws.head? = some k0 → containsSub k0 p.post = true))
    ∧ (∀ (kws : List Str) (sortBy lang : Str) (mr : Nat) (sbGet : Str → SbGetRes (List Post))
        (raw : List RawPost) (rand : Nat) (shuffled : List Post)
        (store : Store (List Post)) (now : Nat),
      cacheGetE (sbGet (blueskyKey kws sortBy lang)) now = .ok none →
      formatBlueskyPosts raw kws ≠ [] →
      getBlueskyReportsE kws sortBy lang mr sbGet false (.ok raw) rand shuffled store now
          = .ok (formatBlueskyPosts raw kws,
              upsert store (blueskyKey kws sortBy lang) (formatBlueskyPosts raw kws)
                (now + 180 * 1000))) := by
  constructor
  · intro kws sortBy lang mr sbGet search rand shuffled store now hmiss hperm hfail
    have hlen : shuffled.length = 6 := by rw [hperm.length_eq, mockPosts_length]
    refine ⟨?_, ?_, ?_, ?_⟩
    · have h := getBlueskyReportsE_fallback kws sortBy lang mr sbGet false search rand
        shuffled store now hmiss hfail
      simpa using h
    · rw [getFallbackMockData_length hlen]
      omega
    · rw [getFallbackMockData_length hlen]
      omega
    · intro p hp
      have hpm : p ∈ mockPosts kws now := hperm.mem_iff.mp (List.take_subset _ _ hp)
      exact ⟨mockPosts_isMockData hpm, fun k0 h => mockPosts_contains_head hpm h⟩
  · intro kws sortBy lang mr sbGet raw rand shuffled store now hmiss hne
    have h := getBlueskyReportsE_genuine kws sortBy lang mr sbGet false raw rand
      shuffled store now hmiss hne
    simpa using h

/-- Claim C3 witness: a concrete throwing search on keywords `["flood"]`
with the identity shuffle. -/
theorem bluesky_fallback_and_ttl_witness :
    3 ≤ (getFallbackMockData 0 (mockPosts floodKw 0)).length
    ∧ (getFallbackMockData 0 (mockPosts floodKw 0)).length ≤ 5 :=
  ⟨(bluesky_fallback_and_ttl.1 floodKw ("latest".toList) ("en".toList) 25 sbMissPosts
      (.error ()) 0 (mockPosts floodKw 0) [] 0 rfl (List.Perm.refl _) (Or.inl rfl)).2.1,
   (bluesky_fallback_and_ttl.1 floodKw ("latest".toList) ("en".toList) 25 sbMissPosts
      (.error ()) 0 (mockPosts floodKw 0) [] 0 rfl (List.Perm.refl _) (Or.inl rfl)).2.2.1⟩

/-- Claim C4, counterexample.  On the empty text with the empty string as a
keyword, `calculateRelevanceScore` returns 20 (the empty keyword is a
substring of everything under `String.prototype.includes`), not the 0 the
claim promises for the empty string. -/
theorem relevance_score_empty_text_counterexample :
    calculateRelevanceScore [] [([] : Str)] = 20
    ∧ calculateRelevanceScore [] [([] : Str)] ≠ 0 :=
  ⟨rfl, by decide⟩

/-- Claim C4, amended: `calculateRelevanceScore` equals the specification's
reference formula on every input, always lies in `[0, 100]` (it is a natural
number, so the lower bound is by type), is 0 on the empty text provided no
supplied keyword is itself the empty string, and on an empty keyword list is
derived from the three indicator-term lists only. -/
theorem relevance_score_spec_amended :
    (∀ (text : Str) (kws : List Str),
        calculateRelevanceScore text kws = specRelevanceScore text kws)
    ∧ (∀ (text : Str) (kws : List Str), calculateRelevanceScore text kws ≤ 100)
    ∧ (∀ (kws : List Str), (∀ k ∈ kws, k ≠ []) → calculateRelevanceScore [] kws = 0)
    ∧ (∀ (text : Str), calculateRelevanceScore text [] =
        min (15 * (emergencyTerms.countP fun m => containsSub m (lower text))
          + 10 * (locationTerms.countP fun m => containsSub m (lower text))
          + 8 * (resourceTerms.countP fun m => containsSub m (lower text))) 100) := by
  refine ⟨calculateRelevanceScore_eq_spec, calculateRelevanceScore_le, ?_, ?_⟩
  · intro kws hk
    rw [calculateRelevanceScore_eq_spec]
    unfold specRelevanceScore
    dsimp only
    have h1 : (kws.countP fun k => containsSub (lower k) (lower [])) = 0 := by
      rw [List.countP_eq_zero]
      intro k hkm
      have hk' : lower k ≠ [] := fun hh => hk k hkm (List.map_eq_nil.mp hh)
      simp [show lower ([] : Str) = [] from rfl, containsSub_nil_right hk']
    have h2 : (kws.countP fun k => containsSub ('#' :: lower k) (lower [])) = 0 := by
      rw [List.countP_eq_zero]
      intro k _
      simp [show lower ([] : Str) = [] from rfl,
        containsSub_nil_right (List.cons_ne_nil '#' (lower k))]
    rw [h1, h2]
    decide
  · intro text
    rw [calculateRelevanceScore_eq_spec]
    unfold specRelevanceScore
    dsimp only
    rw [List.countP_nil, List.countP_nil]
    congr 1
    omega

/-- Claim C4 witness: a non-empty keyword on the empty text scores 0. -/
theorem relevance_score_spec_amended_witness :
    calculateRelevanceScore [] [("a".toList)] = 0 :=
  relevance_score_spec_amended.2.2.1 [("a".toList)] (by decide)

/-- Claim C5: the four `getUpdates` filters (applied in source order:
disaster types, free keywords, states, date lower bound) amount to one
conjunctive predicate whose per-filter keyword sets are ORs; consequently a
query for `disasterTypes = ["fire"]` whose `dateFrom` lies strictly after
every parsable item date returns the empty sequence regardless of the feed
content. -/
theorem official_filters_conjunctive :
    (∀ (o : UpdateOptions) (items : List Item),
        applyFilters o items = items.filter (passesFilters o))
    ∧ (∀ (o : UpdateOptions) (now : Nat) (sbGet : Str → SbGetRes (List Item))
        (setFail : Bool) (feeds : FeedEnv) (store : Store (List Item)) (df : Str),
        o.disasterTypes = [("fire".toList)] →
        o.dateFrom = some df → df ≠ [] →
        (∀ it ∈ officialAllItems feeds now, ∀ t f,
          parseDate it.pubDate = some t → parseDate df = some f → t < f) →
        cacheGetE (sbGet (officialKey o)) now = .ok none →
        ∃ s, getOfficialUpdatesE o now sbGet setFail feeds store = .ok ([], s, 2)) := by
  constructor
  · exact applyFilters_eq
  · intro o now sbGet setFail feeds store df hfire hdf hdfne hfuture hmiss
    by_cases he : officialAllItems feeds now = []
    · exact ⟨store, getOfficialUpdatesE_miss_empty o now sbGet setFail feeds store hmiss he⟩
    · have hfil : applyFilters o (officialAllItems feeds now) = [] := by
        rw [applyFilters_eq, List.filter_eq_nil_iff]
        intro it hit
        have hq4 : (match o.dateFrom with
            | none => true
            | some df' => df'.isEmpty || dateFilterPred df' it) = false := by
          rw [hdf]
          dsimp only
          have h1 : df.isEmpty = false := by
            cases df
            · exact absurd rfl hdfne
            · rfl
          rw [h1]
          have h2 : dateFilterPred df it = false := by
            unfold dateFilterPred
            cases hp : parseDate it.pubDate with
            | none => rfl
            | some t =>
              cases hf : parseDate df with
              | none => rfl
              | some f =>
                have hlt := hfuture it hit t f hp hf
                simp [Nat.not_le.mpr hlt]
          rw [h2]
          rfl
        simp [passesFilters, hq4]
      have hres : officialResult o feeds now = [] := by
        unfold officialResult
        rw [hfil]
        simp [sortByRel]
      refine ⟨if setFail then store
        else upsert store (officialKey o) [] (now + 3600 * 1000), ?_⟩
      rw [getOfficialUpdatesE_miss_run o now sbGet setFail feeds store hmiss he, hres]

/-- Claim C5 witness: the wildfire item of `fireFeeds` matches the fire
filter but the future `dateFrom` of `fireFutureOpts` empties the result. -/
theorem official_filters_conjunctive_witness :
    ∃ s, getOfficialUpdatesE fireFutureOpts 7 sbMissItems false fireFeeds [] = .ok ([], s, 2) :=
  official_filters_conjunctive.2 fireFutureOpts 7 sbMissItems false fireFeeds [] ("99".toList)
    rfl rfl (by decide)
    (by
      intro it hit t f hp hf
      rw [show officialAllItems fireFeeds 7
          = [mapFeedItem ("pressReleases".toList) 7 (0, fireRaw)] from rfl] at hit
      rw [List.mem_singleton] at hit
      subst hit
      rw [show parseDate (mapFeedItem ("pressReleases".toList) 7 (0, fireRaw)).pubDate
          = some 5 from rfl] at hp
      rw [show parseDate ("99".toList) = some 99 from rfl] at hf
      injection hp with hp
      injection hf with hf
      omega)
    rfl

/-- Claim C6, counterexample.  An item whose `pubDate` is present but
unparsable ("garbage", ingested at millisecond 7) is dropped by a
`dateFrom = "5"` filter, although the claim promises it be treated as
having the ingestion timestamp 7 (which is ≥ 5) and never be dropped: the
Invalid-Date comparison `NaN >= fromDate` is false, so `getUpdates` returns
the empty sequence. -/
theorem unparsable_date_dropped_counterexample :
    parseDate ("garbage".toList) = none
    ∧ parseDate ("5".toList) = some 5
    ∧ getOfficialUpdatesE dateFromOpts 7 sbMissItems false garbageDateFeeds []
        = .ok ([], upsert [] (officialKey dateFromOpts) [] (7 + 3600 * 1000), 2) := by
  refine ⟨rfl, rfl, ?_⟩
  rfl

/-- Claim C6, amended: an item whose date FIELDS are all absent is assigned
the ingestion timestamp, which parses back to the ingestion instant (so it
sorts and date-filters as "now"); when no `dateFrom` filter is given the
filter pipeline never consults the date (two items differing only outside
`title`/`description` filter identically), and the sort never drops an
item; but an item whose `pubDate` is present and unparsable is excluded by
any active `dateFrom` filter. -/
theorem unparsable_date_amended :
    (∀ (ft : Str) (now idx : Nat) (raw : RawItem),
        raw.pubDate = none → raw.published = none → raw.updated = none →
        parseDate (mapFeedItem ft now (idx, raw)).pubDate = some now)
    ∧ (∀ (o : UpdateOptions) (it it' : Item), o.dateFrom = none →
        it.title = it'.title → it.description = it'.description →
        passesFilters o it = passesFilters o it')
    ∧ (∀ (l : List Item) (it : Item), it ∈ sortByRel newerItem l ↔ it ∈ l)
    ∧ (∀ (df : Str) (it : Item), parseDate it.pubDate = none →
        dateFilterPred df it = false) := by
  refine ⟨?_, ?_, ?_, ?_⟩
  · intro ft now idx raw h1 h2 h3
    simp only [mapFeedItem, h1, h2, h3, jsOrStr]
    exact parseDate_natStr now
  · intro o it it' hdf ht hd
    have hst : itemSearchText it = itemSearchText it' := by
      unfold itemSearchText
      rw [ht, hd]
    simp only [passesFilters, hdf]
    unfold typeFilterPred kwFilterPred stateFilterPred
    rw [hst]
  · intro l it
    exact mem_sortByRel
  · intro df it hp
    unfold dateFilterPred
    rw [hp]

/-- Claim C6 witness: a raw item with no date fields ingested at
millisecond 5 carries a pubDate that parses to 5. -/
theorem unparsable_date_amended_witness :
    parseDate (mapFeedItem ("disasters".toList) 5 (0, ({} : RawItem))).pubDate = some 5 :=
  unparsable_date_amended.1 ("disasters".toList) 5 0 {} rfl rfl rfl

/-- Claim C7, counterexample.  For keywords `["flood"]` the post
"just chatting" scores 10, not 0: the location-indicator term "at" occurs
inside the word "chatting", earning +10. -/
theorem bluesky_scenario_second_score_counterexample :
    calculateRelevanceScore ("just chatting".toList) floodKw = 10
    ∧ calculateRelevanceScore ("just chatting".toList) floodKw ≠ 0 :=
  ⟨rfl, by decide⟩

/-- Claim C7, amended: for keywords `["flood"]` and exactly the two posts
"Need shelter near #flood area" and "just chatting", the first scores 63
(20 keyword + 10 hashtag + 15 "shelter" + 10 "near" + 8 "need" ≥ 55), the
second scores 10 (the "at" inside "chatting"), and `formatBlueskyPosts`
orders the first before the second. -/
theorem bluesky_scenario_amended :
    calculateRelevanceScore ("Need shelter near #flood area".toList) floodKw = 63
    ∧ 55 ≤ calculateRelevanceScore ("Need shelter near #flood area".toList) floodKw
    ∧ calculateRelevanceScore ("just chatting".toList) floodKw = 10
    ∧ (formatBlueskyPosts [rawFlood1, rawFlood2] floodKw).map
        (fun p => (p.post, p.relevanceScore))
      = [(("Need shelter near #flood area".toList), 63), (("just chatting".toList), 10)] := by
  refine ⟨rfl, by decide, rfl, rfl⟩

/-- Claim C8: a failing feed fetch (transport error, non-200 status,
malformed document, or missing channel) contributes exactly zero items;
`getUpdates` always returns normally; and on a cache miss every returned
item comes from the combined contributions of the feeds (the failed ones
contributing nothing). -/
theorem feed_failures_isolated :
    (∀ (ft : Str) (o : FetchOutcome) (now : Nat),
        fetchFailed o = true → fetchRSSFeedE ft o now = .ok [])
    ∧ (∀ (opts : UpdateOptions) (now : Nat) (sbGet : Str → SbGetRes (List Item))
        (setFail : Bool) (feeds : FeedEnv) (store : Store (List Item)),
        ∃ r, getOfficialUpdatesE opts now sbGet setFail feeds store = .ok r)
    ∧ (∀ (opts : UpdateOptions) (now : Nat) (sbGet : Str → SbGetRes (List Item))
        (setFail : Bool) (feeds : FeedEnv) (store : Store (List Item))
        (items : List Item) (s : Store (List Item)) (n : Nat),
        cacheGetE (sbGet (officialKey opts)) now = .ok none →
        getOfficialUpdatesE opts now sbGet setFail feeds store = .ok (items, s, n) →
        items ⊆ officialAllItems feeds now) := by
  refine ⟨?_, getOfficialUpdatesE_isOk, ?_⟩
  · intro ft o now hf
    cases o with
    | netError => rfl
    | response status doc =>
      by_cases hs : status = 200
      · subst hs
        cases doc with
        | malformed => rfl
        | parsed ch =>
          cases ch with
          | none => rfl
          | some items =>
            exfalso
            simp [fetchFailed] at hf
      · unfold fetchRSSFeedE
        dsimp only
        rw [if_pos hs]
  · intro opts now sbGet setFail feeds store items s n hmiss hrun
    by_cases he : officialAllItems feeds now = []
    · rw [getOfficialUpdatesE_miss_empty opts now sbGet setFail feeds store hmiss he] at hrun
      have : items = [] := by
        injection hrun with h
        exact (Prod.mk.injEq _ _ _ _).mp h.symm |>.1
      rw [this]
      exact List.nil_subset _
    · rw [getOfficialUpdatesE_miss_run opts now sbGet setFail feeds store hmiss he] at hrun
      have : items = officialResult opts feeds now := by
        injection hrun with h
        exact ((Prod.mk.injEq _ _ _ _).mp h.symm).1
      rw [this]
      intro x hx
      have hx1 := List.take_subset _ _ hx
      have hx2 := mem_sortByRel.mp hx1
      rw [applyFilters_eq] at hx2
      exact (List.mem_filter.mp hx2).1

/-- Claim C8 witness: a transport failure and a 500-status malformed
response each yield zero items. -/
theorem feed_failures_isolated_witness :
    fetchRSSFeedE ("pressReleases".toList) .netError 0 = .ok []
    ∧ fetchRSSFeedE ("disasters".toList) (.response 500 .malformed) 3 = .ok [] :=
  ⟨feed_failures_isolated.1 ("pressReleases".toList) .netError 0 rfl,
   feed_failures_isolated.1 ("disasters".toList) (.response 500 .malformed) 3 rfl⟩

/-- Claim C9: over a reliable backing store, a first `getUpdates` call that
misses the cache and ingests a non-empty combined feed performs its single
ingestion round (both feed fetches), and a second call with the identical
query while the cached entry is within its 1-hour TTL issues no feed fetch
and returns the cached value with the store unchanged. -/
theorem getUpdates_cache_idempotent (opts : UpdateOptions) (now1 now2 : Nat)
    (feeds1 feeds2 : FeedEnv) (store0 : Store (List Item))
    (hmiss : cacheGetRel store0 (officialKey opts) now1 = none)
    (hne : officialAllItems feeds1 now1 ≠ [])
    (hwindow : now2 < now1 + 3600 * 1000) :
    ∃ items s1,
      getOfficialUpdatesE opts now1 (reliableRes store0) false feeds1 store0
          = .ok (items, s1, 2)
      ∧ getOfficialUpdatesE opts now2 (reliableRes s1) false feeds2 s1
          = .ok (items, s1, 0) := by
  have hmiss' : cacheGetE (reliableRes store0 (officialKey opts)) now1 = .ok none := by
    unfold cacheGetRel at hmiss
    rw [cacheGetE_eq] at hmiss ⊢
    simpa [okD] using hmiss
  refine ⟨officialResult opts feeds1 now1,
    upsert store0 (officialKey opts) (officialResult opts feeds1 now1) (now1 + 3600 * 1000),
    ?_, ?_⟩
  · have h := getOfficialUpdatesE_miss_run opts now1 (reliableRes store0) false feeds1
      store0 hmiss' hne
    simpa using h
  · apply getOfficialUpdatesE_hit
    rw [cacheGetE_eq]
    unfold reliableRes
    rw [lookupRow_upsert_self]
    dsimp [cacheGetPure]
    rw [if_pos hwindow]

/-- Claim C9 witness: a concrete first call at millisecond 10 (feeds deliver
one wildfire item) and a second call at millisecond 100 against arbitrary
other feed outcomes. -/
theorem getUpdates_cache_idempotent_witness :
    ∃ items s1,
      getOfficialUpdatesE {} 10 (reliableRes []) false idemFeeds1 [] = .ok (items, s1, 2)
      ∧ getOfficialUpdatesE {} 100 (reliableRes s1) false idemFeeds2 s1 = .ok (items, s1, 0) :=
  getUpdates_cache_idempotent {} 10 100 idemFeeds1 idemFeeds2 [] rfl (by decide) (by decide)

/-- Claim C10, counterexample.  For the one-element keyword list
`["flood"]` (fewer than two elements) the generator does NOT substitute the
default primary keyword "disaster": the primary slot is "flood" itself, and
the first canned text interpolates "#flood", not "#disaster". -/
theorem fallback_primary_keyword_counterexample :
    primaryKeyword floodKw = ("flood".toList)
    ∧ primaryKeyword floodKw ≠ ("disaster".toList)
    ∧ containsSub ("#flood".toList) (mockText1 (primaryKeyword floodKw)) = true
    ∧ containsSub ("#disaster".toList) (mockText1 (primaryKeyword floodKw)) = false := by
  refine ⟨rfl, by decide, by decide, by decide⟩

/-- Claim C10, amended: the defaults fill only the missing slots — the empty
keyword list gets primary "disaster" and secondary "emergency", a one-element
list keeps its own (truthy) first keyword and defaults only the secondary —
and a search on the empty keyword list whose live call fails still returns
3 to 5 synthetic posts instead of failing. -/
theorem fallback_keyword_defaults_amended :
    (primaryKeyword [] = ("disaster".toList) ∧ secondaryKeyword [] = ("emergency".toList))
    ∧ (∀ k : Str, k ≠ [] → primaryKeyword [k] = k)
    ∧ (∀ k : Str, secondaryKeyword [k] = ("emergency".toList))
    ∧ (∀ (sortBy lang : Str) (mr : Nat) (sbGet : Str → SbGetRes (List Post)) (rand : Nat)
        (shuffled : List Post) (store : Store (List Post)) (now : Nat),
        cacheGetE (sbGet (blueskyKey [] sortBy lang)) now = .ok none →
        shuffled.Perm (mockPosts [] now) →
        ∃ posts s,
          getBlueskyReportsE [] sortBy lang mr sbGet false (.error ()) rand shuffled store now
              = .ok (posts, s)
          ∧ 3 ≤ posts.length ∧ posts.length ≤ 5
          ∧ ∀ p ∈ posts, p.isMockData = true) := by
  refine ⟨⟨rfl, rfl⟩, ?_, ?_, ?_⟩
  · intro k hk
    simp [primaryKeyword, jsOrStr, hk]
  · intro k
    rfl
  · intro sortBy lang mr sbGet rand shuffled store now hmiss hperm
    have hlen : shuffled.length = 6 := by rw [hperm.length_eq, mockPosts_length]
    refine ⟨getFallbackMockData rand shuffled,
      upsert store (blueskyKey [] sortBy lang) (getFallbackMockData rand shuffled)
        (now + 60 * 1000), ?_, ?_, ?_, ?_⟩
    · have h := getBlueskyReportsE_fallback [] sortBy lang mr sbGet false (.error ()) rand
        shuffled store now hmiss (Or.inl rfl)
      simpa using h
    · rw [getFallbackMockData_length hlen]
      omega
    · rw [getFallbackMockData_length hlen]
      omega
    · intro p hp
      exact mockPosts_isMockData (hperm.mem_iff.mp (List.take_subset _ _ hp))

/-- Claim C10 witness: a concrete one-element keyword list keeps its own
primary keyword. -/
theorem fallback_keyword_defaults_amended_witness :
    primaryKeyword [("x".toList)] = ("x".toList) :=
  fallback_keyword_defaults_amended.2.1 ("x".toList) (by decide)

end DisasterPlatform
